import Mathlib

/-!
Verification of the shuttlings submission validators (cch23-validator and
cch24-validator) against their natural-language specification.

The embedding models:
* the shared event protocol (`shuttlings::SubmissionUpdate`),
* the per-challenge validation scripts as straight-line step programs
  (each `test = (a, b)` assignment in the source becomes one `Item.step`,
  each `tx.send((final, bonus).into())` a `Item.taskDone`, each
  `tx.send(SubmissionUpdate::Save)` a `Item.save`, and the one conditional
  latency log line in cch24 `validate_9` a `Item.condLog`),
* the orchestrator `run` (emit Running/Save, then race the matched script
  against a 60 s timer) as a trace function over an oracle describing the
  target server's behaviour and a `RunOutcome` describing which side of
  the `tokio::select!` race completed first,
* the cch23 WebSocket harness `WS` and the `ws_base_url` derivation of
  `validate_19`.

Channel sends are modelled as non-blocking while the receiver is alive
(the consumer in `main.rs` continuously drains the 32-slot channel), so a
script can only be abandoned by the timer while suspended on a network
operation, i.e. at a `step` boundary.  A closed channel makes every
`tx.send(..).await.unwrap()` panic; that is modelled separately by
`sendAllE`.
-/

namespace Shuttlings

/-- Submission lifecycle states, from `shuttlings::SubmissionState`. -/
inductive SubmissionState where
  | Waiting
  | Running
  | Done
  | Error
deriving DecidableEq, Repr

/-- Progress events, from `shuttlings::SubmissionUpdate`.  The spec calls
`State` "StateChanged", and `Save` "PersistHint". -/
inductive SubmissionUpdate where
  | State (s : SubmissionState)
  | TaskCompleted (isFinalTask : Bool) (bonusPoints : Int)
  | LogLine (line : String)
  | Save
deriving DecidableEq, Repr

/-- Task number and test number in the current challenge (`type TaskTest`). -/
abbrev TaskTest := Int × Int

/-- Result of a validation script (`type ValidateResult`). -/
abbrev ValidateResult := Except TaskTest Unit

instance {ε α : Type} [DecidableEq ε] [DecidableEq α] : DecidableEq (Except ε α) := fun a b =>
  match a, b with
  | .ok x, .ok y =>
    if h : x = y then .isTrue (by rw [h]) else .isFalse (by simp [h])
  | .ok _, .error _ => .isFalse (by simp)
  | .error _, .ok _ => .isFalse (by simp)
  | .error e, .error f =>
    if h : e = f then .isTrue (by rw [h]) else .isFalse (by simp [h])

/-- One element of a validation script: the scripts in both validators are
straight-line sequences of fallible request/assert blocks (one per
`test = (a, b)` assignment, failing with exactly that `TaskTest`),
interleaved with progress-event emissions. -/
inductive Item where
  | step (t : TaskTest)
  | taskDone (isFinalTask : Bool) (bonusPoints : Int)
  | save
  | condLog (line : String)
deriving DecidableEq, Repr

/-- Interprets a script against an oracle `o` describing the behaviour of
the server under test: `o i` tells whether the fallible block at position
`i` passes (for a `condLog` item, whether the latency warning fires).
Returns the emitted events and the script's `ValidateResult`; the script
stops at its first failing step and returns that step's `TaskTest`. -/
def runItems : List Item → (Nat → Bool) → List SubmissionUpdate × ValidateResult
  | [], _ => ([], .ok ())
  | .step t :: rest, o =>
    if o 0 then runItems rest (fun j => o (j + 1)) else ([], .error t)
  | .taskDone f b :: rest, o =>
    let (tr, r) := runItems rest (fun j => o (j + 1))
    (.TaskCompleted f b :: tr, r)
  | .save :: rest, o =>
    let (tr, r) := runItems rest (fun j => o (j + 1))
    (.Save :: tr, r)
  | .condLog line :: rest, o =>
    let (tr, r) := runItems rest (fun j => o (j + 1))
    (if o 0 then .LogLine line :: tr else tr, r)

/-- Runs a script from its first item. -/
def runScript (prog : List Item) (o : Nat → Bool) : List SubmissionUpdate × ValidateResult :=
  runItems prog o

/-- Log line emitted by `validate` when the script failed
(`format!("Task {task}: test #{test} failed 🟥")`). -/
def failLine (task tst : Int) : String :=
  s!"Task {task}: test #{tst} failed 🟥"

/-- Log line of the timeout branch of `run`. -/
def timedOutMsg : String := "Timed out"

/-- Log line for an unsupported challenge number. -/
def unsupportedMsg (number : String) : String :=
  s!"Validating Challenge {number} is not supported yet! Check for updates."

/-- Latency warning emitted conditionally by cch24 `validate_9`. -/
def latencyMsg : String :=
  "Info: High network latency detected. This test is timing-sensitive and might therefore fail."

/-- Events `validate` appends after the script result: the failure log line
on `Err`, nothing on `Ok`. -/
def finishTail : ValidateResult → List SubmissionUpdate
  | .error (task, tst) => [.LogLine (failLine task tst)]
  | .ok () => []

/-- Trace of `validate(url, number, tx)`: dispatch to the script when the
number is supported (then the failure line on `Err`, then `Done` and
`Save`); a single unsupported-challenge log line otherwise. -/
def validateTraceG (lookup : Option (List Item)) (numStr : String) (o : Nat → Bool) :
    List SubmissionUpdate :=
  match lookup with
  | none => [.LogLine (unsupportedMsg numStr)]
  | some prog =>
    (runScript prog o).1 ++ finishTail (runScript prog o).2 ++ [.State .Done, .Save]

/-- Which side of the `tokio::select!` race in `run` completed first:
either the `validate` future, or the 60-second `sleep` while `validate`
was still suspended on the network operation at item position `cut`. -/
inductive RunOutcome where
  | finished
  | timedOut (cut : Nat)
deriving DecidableEq, Repr

/-- A timeout cut is realisable when the script is still suspended on a
network operation at position `cut`: that item is a `step`, and no
earlier step has failed (the script would otherwise already have
returned). -/
def cutValid (prog : List Item) (o : Nat → Bool) (cut : Nat) : Bool :=
  (match prog.get? cut with
   | some (.step _) => true
   | _ => false) &&
  (match (runScript (prog.take cut) o).2 with
   | .ok _ => true
   | .error _ => false)

/-- Realisability of a `RunOutcome`.  When the number is unsupported the
script future has no suspension point, so only `finished` is realisable. -/
def outcomeValid (lookup : Option (List Item)) (o : Nat → Bool) : RunOutcome → Bool
  | .finished => true
  | .timedOut cut =>
    match lookup with
    | some prog => cutValid prog o cut
    | none => false

/-- Trace of `run(url, id, number, tx)`: `Running` and `Save` first, then
either the full `validate` trace (script branch won the race) or the
events the script emitted before the timer fired, followed by the
timeout log line, `Done`, and `Save`. -/
def runTraceG (lookup : Option (List Item)) (numStr : String) (o : Nat → Bool) :
    RunOutcome → List SubmissionUpdate
  | .finished => .State .Running :: .Save :: validateTraceG lookup numStr o
  | .timedOut cut =>
    match lookup with
    | some prog =>
      .State .Running :: .Save ::
        ((runScript (prog.take cut) o).1 ++ [.LogLine timedOutMsg, .State .Done, .Save])
    | none => .State .Running :: .Save :: validateTraceG lookup numStr o

namespace Cch23

/-- Step/event skeleton of cch23 `validate_minus1`. -/
def validate_minus1 : List Item :=
  [.step (1, 1), .taskDone true 0, .save,
   .step (2, 1), .taskDone false 0]

/-- Step/event skeleton of cch23 `validate_1`. -/
def validate_1 : List Item :=
  [.step (1, 1), .step (1, 2), .taskDone true 0, .save,
   .step (2, 1), .step (2, 2), .step (2, 3), .step (2, 4), .taskDone false 100]

/-- Step/event skeleton of cch23 `validate_4`. -/
def validate_4 : List Item :=
  [.step (1, 1), .taskDone true 0, .save,
   .step (2, 1), .taskDone false 150]

/-- Step/event skeleton of cch23 `validate_5`. -/
def validate_5 : List Item :=
  [.step (1, 1), .step (1, 2), .taskDone true 0, .save,
   .step (2, 1), .step (2, 2), .step (2, 3), .step (2, 4), .step (2, 5), .step (2, 6),
   .step (2, 7), .step (2, 8), .taskDone false 150]

/-- Step/event skeleton of cch23 `validate_6`. -/
def validate_6 : List Item :=
  [.step (1, 1), .step (1, 2), .taskDone true 0, .save,
   .step (2, 1), .step (2, 2), .step (2, 3), .taskDone false 200]

/-- Step/event skeleton of cch23 `validate_7`. -/
def validate_7 : List Item :=
  [.step (1, 1), .step (1, 2), .taskDone true 0, .save,
   .step (2, 1), .step (2, 2), .taskDone false 120, .save,
   .step (3, 1), .step (3, 2), .step (3, 3), .step (3, 4), .taskDone false 100]

/-- Step/event skeleton of cch23 `validate_8`. -/
def validate_8 : List Item :=
  [.step (1, 1), .step (1, 2), .step (1, 3), .taskDone true 0, .save,
   .step (2, 1), .step (2, 2), .step (2, 3), .taskDone false 160]

/-- Step/event skeleton of cch23 `validate_11`. -/
def validate_11 : List Item :=
  [.step (1, 1), .taskDone true 0, .save,
   .step (2, 1), .step (2, 2), .step (2, 3), .taskDone false 200]

/-- Step/event skeleton of cch23 `validate_12`. -/
def validate_12 : List Item :=
  [.step (1, 1), .step (1, 2), .taskDone true 0, .save,
   .step (2, 1), .step (2, 2), .taskDone false 100, .save,
   .step (3, 1), .step (3, 2), .step (3, 3), .taskDone false 200]

/-- Step/event skeleton of cch23 `validate_13`. -/
def validate_13 : List Item :=
  [.step (1, 1), .taskDone false 0, .save,
   .step (2, 1), .step (2, 2), .taskDone true 0, .save,
   .step (3, 1), .step (3, 2), .taskDone false 100]

/-- Step/event skeleton of cch23 `validate_14`. -/
def validate_14 : List Item :=
  [.step (1, 1), .step (1, 2), .taskDone true 0, .save,
   .step (2, 1), .taskDone false 100]

/-- Step/event skeleton of cch23 `validate_15`. -/
def validate_15 : List Item :=
  [.step (1, 1), .step (1, 2), .step (1, 3), .step (1, 4), .step (1, 5), .step (1, 6),
   .taskDone true 0, .save,
   .step (2, 1), .step (2, 2), .step (2, 3), .step (2, 4), .step (2, 5), .step (2, 6),
   .step (2, 7), .step (2, 8), .step (2, 9), .step (2, 10), .step (2, 11), .step (2, 12),
   .step (2, 13), .step (2, 14), .step (2, 15), .step (2, 16), .step (2, 17), .step (2, 18),
   .taskDone false 400]

/-- Step/event skeleton of cch23 `validate_18`. -/
def validate_18 : List Item :=
  [.step (1, 1), .step (1, 2), .step (1, 3), .step (1, 4), .step (1, 5), .step (1, 6),
   .step (1, 7), .step (1, 8), .taskDone true 0, .save,
   .step (2, 1), .step (2, 2), .step (2, 3), .step (2, 4), .step (2, 5), .step (2, 6),
   .step (2, 7), .step (2, 8), .taskDone false 600]

/-- Step/event skeleton of cch23 `validate_19`. -/
def validate_19 : List Item :=
  [.step (1, 1), .step (1, 2), .step (1, 3), .taskDone true 0, .save,
   .step (2, 1), .step (2, 2), .step (2, 3), .step (2, 4), .step (2, 5), .step (2, 6),
   .step (2, 7), .taskDone false 500]

/-- Step/event skeleton of cch23 `validate_20`. -/
def validate_20 : List Item :=
  [.step (1, 1), .step (1, 2), .taskDone true 0, .save,
   .step (2, 1), .step (2, 2), .taskDone false 350]

/-- Step/event skeleton of cch23 `validate_21`. -/
def validate_21 : List Item :=
  [.step (1, 1), .step (1, 2), .step (1, 3), .taskDone true 0, .save,
   .step (2, 1), .step (2, 2), .step (2, 3), .step (2, 4), .step (2, 5), .step (2, 6),
   .step (2, 7), .taskDone false 300]

/-- Step/event skeleton of cch23 `validate_22`. -/
def validate_22 : List Item :=
  [.step (1, 1), .step (1, 2), .step (1, 3), .step (1, 4), .step (1, 5), .taskDone true 0, .save,
   .step (2, 1), .step (2, 2), .step (2, 3), .step (2, 4), .step (2, 5), .step (2, 6),
   .step (2, 7), .step (2, 8), .taskDone false 600]

end Cch23

namespace Cch24

/-- Step/event skeleton of cch24 `validate_minus1`. -/
def validate_minus1 : List Item :=
  [.step (1, 1), .taskDone true 0, .save,
   .step (2, 1), .taskDone false 0]

/-- Step/event skeleton of cch24 `validate_2`. -/
def validate_2 : List Item :=
  [.step (1, 1), .step (1, 2), .step (1, 3), .taskDone false 0, .save,
   .step (2, 1), .step (2, 2), .step (2, 3), .taskDone true 0, .save,
   .step (3, 1), .step (3, 2), .step (3, 3), .step (3, 4), .step (3, 5), .step (3, 6),
   .taskDone false 50, .save]

/-- Step/event skeleton of cch24 `validate_5`. -/
def validate_5 : List Item :=
  [.step (1, 1), .step (1, 2), .step (1, 3), .step (1, 4), .taskDone false 0, .save,
   .step (2, 1), .step (2, 2), .step (2, 3), .step (2, 4), .step (2, 5), .taskDone false 0, .save,
   .step (3, 1), .step (3, 2), .step (3, 3), .step (3, 4), .taskDone true 0, .save,
   .step (4, 1), .step (4, 2), .step (4, 3), .step (4, 4), .step (4, 5), .step (4, 6),
   .step (4, 7), .taskDone false 70, .save]

/-- Step/event skeleton of cch24 `validate_9` (the latency warning between
the first and second half of task 1 is the one conditional log line). -/
def validate_9 : List Item :=
  [.step (1, 1), .condLog latencyMsg, .step (1, 1), .taskDone false 0, .save,
   .step (2, 1), .step (2, 2), .step (2, 3), .step (2, 4), .step (2, 5), .step (2, 6),
   .step (2, 7), .step (2, 8), .step (2, 9), .step (2, 10), .step (2, 11),
   .taskDone false 0, .save,
   .step (3, 1), .step (3, 2), .step (3, 3), .step (3, 4), .step (3, 5), .step (3, 6),
   .step (3, 7), .taskDone true 0, .save,
   .step (4, 1), .step (4, 2), .taskDone false 75, .save]

/-- Step/event skeleton of cch24 `validate_12`. -/
def validate_12 : List Item :=
  [.step (1, 1), .step (1, 2), .taskDone false 0, .save,
   .step (2, 1), .step (2, 2), .step (2, 3), .step (2, 4), .step (2, 5), .taskDone true 0, .save,
   .step (3, 1), .taskDone false 75, .save]

/-- Step/event skeleton of cch24 `validate_16`. -/
def validate_16 : List Item :=
  [.step (1, 1), .step (1, 2), .step (1, 3), .step (1, 4), .taskDone true 0, .save,
   .step (2, 1), .step (2, 2), .step (2, 3), .step (2, 4), .step (2, 5), .step (2, 6),
   .taskDone false 200, .save]

/-- Step/event skeleton of cch24 `validate_19`. -/
def validate_19 : List Item :=
  [.step (1, 1), .step (1, 2), .step (1, 3), .taskDone true 0, .save,
   .step (2, 1), .step (2, 2), .step (2, 3), .step (2, 4), .step (2, 5), .taskDone false 75]

/-- Step/event skeleton of cch24 `validate_23` (test id (6, 5) is assigned
twice in the source). -/
def validate_23 : List Item :=
  [.step (1, 1), .taskDone false 0, .save,
   .step (2, 1), .taskDone false 0, .save,
   .step (3, 1), .step (3, 2), .taskDone false 0, .save,
   .step (4, 1), .step (4, 2), .step (4, 3), .taskDone false 0, .save,
   .step (5, 1), .taskDone true 0, .save,
   .step (6, 1), .step (6, 2), .step (6, 3), .step (6, 4), .step (6, 5), .step (6, 5),
   .step (6, 6), .step (6, 7), .step (6, 8), .step (6, 9), .step (6, 10), .step (6, 11),
   .step (6, 12), .taskDone false 100, .save]

end Cch24

/-- Supported challenge numbers of cch23 (`SUPPORTED_CHALLENGES`). -/
def SUPPORTED_CHALLENGES_23 : List Int :=
  [-1, 1, 4, 5, 6, 7, 8, 11, 12, 13, 14, 15, 18, 19, 20, 21, 22]

/-- Supported challenge numbers of cch24 (`SUPPORTED_CHALLENGES`). -/
def SUPPORTED_CHALLENGES_24 : List String :=
  ["-1", "2", "5", "9", "12", "16", "19", "23"]

/-- Dispatch of cch23 `validate`'s `match number` (the `_ => unreachable!()`
arm, only reachable outside `SUPPORTED_CHALLENGES`, is mapped to `[]`;
`lookup23` never consults it there). -/
def dispatch23 (number : Int) : List Item :=
  if number = -1 then Cch23.validate_minus1
  else if number = 1 then Cch23.validate_1
  else if number = 4 then Cch23.validate_4
  else if number = 5 then Cch23.validate_5
  else if number = 6 then Cch23.validate_6
  else if number = 7 then Cch23.validate_7
  else if number = 8 then Cch23.validate_8
  else if number = 11 then Cch23.validate_11
  else if number = 12 then Cch23.validate_12
  else if number = 13 then Cch23.validate_13
  else if number = 14 then Cch23.validate_14
  else if number = 15 then Cch23.validate_15
  else if number = 18 then Cch23.validate_18
  else if number = 19 then Cch23.validate_19
  else if number = 20 then Cch23.validate_20
  else if number = 21 then Cch23.validate_21
  else if number = 22 then Cch23.validate_22
  else []

/-- Script selection of cch23 `validate`: the support check
`SUPPORTED_CHALLENGES.contains(&number)` guards the dispatch. -/
def lookup23 (number : Int) : Option (List Item) :=
  if SUPPORTED_CHALLENGES_23.contains number then some (dispatch23 number) else none

/-- Script selection of cch24 `validate`'s `match number`; the default arm
emits the unsupported-challenge line, modelled by `none`. -/
def lookup24 (number : String) : Option (List Item) :=
  if number = "-1" then some Cch24.validate_minus1
  else if number = "2" then some Cch24.validate_2
  else if number = "5" then some Cch24.validate_5
  else if number = "9" then some Cch24.validate_9
  else if number = "12" then some Cch24.validate_12
  else if number = "16" then some Cch24.validate_16
  else if number = "19" then some Cch24.validate_19
  else if number = "23" then some Cch24.validate_23
  else none

/-- Event trace of cch23 `run` for challenge `number`. -/
def runTrace23 (number : Int) (o : Nat → Bool) (oc : RunOutcome) : List SubmissionUpdate :=
  runTraceG (lookup23 number) (toString number) o oc

/-- Event trace of cch24 `run` for challenge `number`. -/
def runTrace24 (number : String) (o : Nat → Bool) (oc : RunOutcome) : List SubmissionUpdate :=
  runTraceG (lookup24 number) number o oc

/-- Every validation script of the two validators. -/
def allProgs : List (List Item) :=
  [Cch23.validate_minus1, Cch23.validate_1, Cch23.validate_4, Cch23.validate_5,
   Cch23.validate_6, Cch23.validate_7, Cch23.validate_8, Cch23.validate_11,
   Cch23.validate_12, Cch23.validate_13, Cch23.validate_14, Cch23.validate_15,
   Cch23.validate_18, Cch23.validate_19, Cch23.validate_20, Cch23.validate_21,
   Cch23.validate_22,
   Cch24.validate_minus1, Cch24.validate_2, Cch24.validate_5, Cch24.validate_9,
   Cch24.validate_12, Cch24.validate_16, Cch24.validate_19, Cch24.validate_23]

/-- Frame kinds of `tokio_tungstenite::tungstenite::Message`; only text
frames carry a payload the harness inspects, so the other kinds are
represented by their tag alone. -/
inductive WsMsg where
  | text (t : String)
  | binary
  | ping
  | pong
  | close
  | frame
deriving DecidableEq, Repr

namespace Cch23

/-- The cch23 WebSocket harness `struct WS`: the split sink/stream halves
carry no test-relevant state, so the model keeps only the mutable
`test : TaskTest` field that failures are attributed to. -/
structure WS where
  test : TaskTest
deriving DecidableEq, Repr

/-- Models `WS::new`: `connected` tells whether `connect_async` succeeded;
a failure maps to the caller-supplied `TaskTest`. -/
def WS.new (t : TaskTest) (connected : Bool) : Except TaskTest WS :=
  if connected then .ok { test := t } else .error t

/-- Models `WS::send`: `ioOk` tells whether the sink accepted the text
frame; a failure maps to the harness's current `test`. -/
def WS.send (ws : WS) (ioOk : Bool) : Except TaskTest Unit :=
  if ioOk then .ok () else .error ws.test

/-- Models `WS::send_tweet`: wraps `send` with a serialised
`{"message": ...}` payload (the payload never affects the result). -/
def WS.send_tweet (ws : WS) (ioOk : Bool) : Except TaskTest Unit :=
  ws.send ioOk

/-- Models `WS::recv`: `next` is what `self.r.next().await` produced
(`none` for a closed stream, `.error ()` for a transport error).  Only
`Some(Ok(Message::Text(..)))` succeeds; everything else fails the
current `test`. -/
def WS.recv (ws : WS) (next : Option (Except Unit WsMsg)) : Except TaskTest String :=
  match next with
  | some (.ok (.text t)) => .ok t
  | _ => .error ws.test

/-- Models `WS::recv_str`: receive then compare against `exp`. -/
def WS.recv_str (ws : WS) (next : Option (Except Unit WsMsg)) (exp : String) :
    Except TaskTest Unit :=
  match ws.recv next with
  | .error e => .error e
  | .ok t => if t = exp then .ok () else .error ws.test

/-- Models `WS::recv_json`: receive, parse (over an abstract value type
standing in for `serde_json::Value`; `parse` models
`serde_json::from_str`), then compare against `exp`. -/
def WS.recv_json {α : Type} [DecidableEq α] (ws : WS) (next : Option (Except Unit WsMsg))
    (parse : String → Option α) (exp : α) : Except TaskTest Unit :=
  match ws.recv next with
  | .error e => .error e
  | .ok t =>
    match parse t with
    | none => .error ws.test
    | some j => if j = exp then .ok () else .error ws.test

/-- Models `WS::close`: sends a close frame; failure maps to the current
`test`. -/
def WS.close (ws : WS) (ioOk : Bool) : Except TaskTest Unit :=
  if ioOk then .ok () else .error ws.test

/-- Models `ws.test = test;` reassignment inside cch23 `validate_19`. -/
def WS.setTest (ws : WS) (t : TaskTest) : WS :=
  { ws with test := t }

/-- Models `base_url.strip_prefix("http")` in cch23 `validate_19`
(`str::strip_prefix` returns `None` when the prefix does not match; the
prefix test and the character drop are carried out on the character list
of the string). -/
def stripHttp (s : String) : Option String :=
  if "http".data <+: s.data then some ⟨s.data.drop 4⟩ else none

/-- Models the `ws_base_url` derivation of cch23 `validate_19`:
`format!("ws{}", base_url.strip_prefix("http").expect("url to begin with http"))`.
`none` models the `expect` panic. -/
def wsBaseUrl (baseUrl : String) : Option String :=
  (stripHttp baseUrl).map (fun rest => "ws" ++ rest)

end Cch23

/-- Number of `TaskCompleted` events in a trace. -/
def countTC (tr : List SubmissionUpdate) : Nat :=
  tr.countP fun u => match u with
    | .TaskCompleted _ _ => true
    | _ => false

/-- The `TaskCompleted` payloads of a trace, in order. -/
def filterTC (tr : List SubmissionUpdate) : List (Bool × Int) :=
  tr.filterMap fun u => match u with
    | .TaskCompleted f b => some (f, b)
    | _ => none

/-- The `taskDone` payloads of a script, in order. -/
def tcOf : List Item → List (Bool × Int)
  | [] => []
  | .taskDone f b :: rest => (f, b) :: tcOf rest
  | _ :: rest => tcOf rest

/-- Task-group bookkeeping: walking the script with `tds` completed task
groups so far, every `step` must carry a task number equal to `tds + 1`
(steps of group `t` run strictly before that group's `taskDone` and
strictly after the previous group's). -/
def wfAux : List Item → Nat → Bool
  | [], _ => true
  | .step (a, _) :: rest, tds => decide ((tds : Int) + 1 = a) && wfAux rest tds
  | .taskDone _ _ :: rest, tds => wfAux rest (tds + 1)
  | .save :: rest, tds => wfAux rest tds
  | .condLog _ :: rest, tds => wfAux rest tds

/-- A script is group-ordered when `wfAux` holds from zero completed groups. -/
def wfB (prog : List Item) : Bool :=
  wfAux prog 0

/-- Checks that every `taskDone` of a script is immediately followed by a
`save` item, or is the script's final item. -/
def tdSavedB : List Item → Bool
  | [] => true
  | .taskDone _ _ :: rest =>
    (match rest with
     | [] => true
     | .save :: _ => true
     | _ => false) && tdSavedB rest
  | _ :: rest => tdSavedB rest

/-- Checks a `TaskCompleted` list for the invariant of a successful run:
exactly one entry is the final task, and every entry after it has
`isFinalTask = false`. -/
def oneFinalB (tcs : List (Bool × Int)) : Bool :=
  (tcs.countP fun p => p.1) = 1 &&
  (match tcs.dropWhile (fun p => !p.1) with
   | [] => true
   | _ :: post => post.all fun p => !p.1)

/-- Checks that every `TaskCompleted` after the final task carries a
nonnegative bonus. -/
def afterFinalNonnegB (tcs : List (Bool × Int)) : Bool :=
  match tcs.dropWhile (fun p => !p.1) with
  | [] => true
  | _ :: post => post.all fun p => decide (0 ≤ p.2)

/-- Checks that every `TaskCompleted` after the final task carries a
strictly positive bonus (the reading of the spec refuted below). -/
def afterFinalPosB (tcs : List (Bool × Int)) : Bool :=
  match tcs.dropWhile (fun p => !p.1) with
  | [] => true
  | _ :: post => post.all fun p => decide (0 < p.2)

/-- The channel-send failure mode: `tx.send(..).await.unwrap()` panics. -/
inductive Panic where
  | panicked
deriving DecidableEq, Repr

/-- Models delivering a trace event by event over the mpsc channel:
`openAt i` tells whether the receiver is still alive at the `i`-th send;
a send on a closed channel returns `Err`, and the `.unwrap()` panics. -/
def sendAllE (openAt : Nat → Bool) : Nat → List SubmissionUpdate → Except Panic Unit
  | _, [] => .ok ()
  | i, _ :: rest => if openAt i then sendAllE openAt (i + 1) rest else .error .panicked

/-! Lemmas about the script interpreter. -/

/-- Scripts never emit state-change events: only the orchestrator does. -/
theorem runItems_no_state (prog : List Item) (o : Nat → Bool) (st : SubmissionState) :
    SubmissionUpdate.State st ∉ (runItems prog o).1 := by
  induction prog generalizing o with
  | nil => simp [runItems]
  | cons hd tl ih =>
    cases hd with
    | step t =>
      by_cases h : o 0
      · simpa [runItems, h] using ih fun j => o (j + 1)
      · simp [runItems, h]
    | taskDone f b =>
      simpa [runItems] using ih fun j => o (j + 1)
    | save =>
      simpa [runItems] using ih fun j => o (j + 1)
    | condLog line =>
      by_cases h : o 0
      · simpa [runItems, h] using ih fun j => o (j + 1)
      · simpa [runItems, h] using ih fun j => o (j + 1)

/-- The interpreter only reads the oracle at positions below the script
length: the outcome of a run is independent of anything beyond it. -/
theorem runItems_congr (prog : List Item) (o o' : Nat → Bool)
    (h : ∀ j, j < prog.length → o j = o' j) :
    runItems prog o = runItems prog o' := by
  induction prog generalizing o o' with
  | nil => rfl
  | cons hd tl ih =>
    have h0 : o 0 = o' 0 := h 0 (by simp)
    have hrest : runItems tl (fun j => o (j + 1)) = runItems tl (fun j => o' (j + 1)) :=
      ih _ _ fun j hj => h (j + 1) (by simpa using Nat.succ_lt_succ hj)
    cases hd <;> simp [runItems, h0, hrest]

theorem runItems_step_pass (t : TaskTest) (rest : List Item) (o : Nat → Bool) (h : o 0 = true) :
    runItems (.step t :: rest) o = runItems rest fun j => o (j + 1) := by
  simp [runItems, h]

theorem runItems_step_fail (t : TaskTest) (rest : List Item) (o : Nat → Bool) (h : o 0 = false) :
    runItems (.step t :: rest) o = ([], .error t) := by
  simp [runItems, h]

theorem runItems_taskDone (f : Bool) (b : Int) (rest : List Item) (o : Nat → Bool) :
    runItems (.taskDone f b :: rest) o =
      (.TaskCompleted f b :: (runItems rest fun j => o (j + 1)).1,
        (runItems rest fun j => o (j + 1)).2) := by
  simp [runItems]

theorem runItems_save (rest : List Item) (o : Nat → Bool) :
    runItems (.save :: rest) o =
      (.Save :: (runItems rest fun j => o (j + 1)).1,
        (runItems rest fun j => o (j + 1)).2) := by
  simp [runItems]

theorem runItems_condLog (line : String) (rest : List Item) (o : Nat → Bool) :
    runItems (.condLog line :: rest) o =
      ((if o 0 then [SubmissionUpdate.LogLine line] else []) ++
          (runItems rest fun j => o (j + 1)).1,
        (runItems rest fun j => o (j + 1)).2) := by
  by_cases h : o 0 <;> simp [runItems, h]

theorem countTC_cons_tc (f : Bool) (b : Int) (tr : List SubmissionUpdate) :
    countTC (.TaskCompleted f b :: tr) = countTC tr + 1 := by
  simp [countTC]

theorem countTC_cons_save (tr : List SubmissionUpdate) :
    countTC (.Save :: tr) = countTC tr := by
  simp [countTC]

theorem countTC_cons_log (line : String) (tr : List SubmissionUpdate) :
    countTC (.LogLine line :: tr) = countTC tr := by
  simp [countTC]

/-- First-failure propagation, relative to `tds` already-completed task
groups: if the step at position `k` fails and every earlier step passes,
the run returns exactly that step's `TaskTest`, and the `TaskCompleted`
events emitted are exactly those of the task groups strictly before the
failing step's group. -/
theorem runItems_firstFail (prog : List Item) (o : Nat → Bool) (k tds : Nat) (a b : Int)
    (hwf : wfAux prog tds = true)
    (hk : prog.get? k = some (.step (a, b)))
    (hfail : o k = false)
    (hpre : ∀ j, j < k → (∃ t, prog.get? j = some (.step t)) → o j = true) :
    (runItems prog o).2 = .error (a, b) ∧
      (countTC (runItems prog o).1 : Int) + tds = a - 1 := by
  induction prog generalizing o k tds with
  | nil => simp at hk
  | cons hd tl ih =>
    cases hd with
    | step t =>
      rcases k with _ | k
      · obtain rfl : t = (a, b) := by simpa using hk
        obtain ⟨ha, -⟩ : (tds : Int) + 1 = a ∧ wfAux tl tds = true := by
          simpa [wfAux] using hwf
        rw [runItems_step_fail _ _ _ hfail]
        refine ⟨rfl, ?_⟩
        simp only [countTC, List.countP_nil]
        omega
      · have h0 : o 0 = true := hpre 0 (Nat.succ_pos _) ⟨t, rfl⟩
        obtain ⟨ta, tb⟩ := t
        obtain ⟨-, hwf'⟩ : (tds : Int) + 1 = ta ∧ wfAux tl tds = true := by
          simpa [wfAux] using hwf
        rw [runItems_step_pass _ _ _ h0]
        exact ih (fun j => o (j + 1)) k tds hwf' (by simpa using hk) (by simpa using hfail)
          (fun j hj hs => hpre (j + 1) (Nat.succ_lt_succ hj) (by simpa using hs))
    | taskDone f b' =>
      rcases k with _ | k
      · simp at hk
      · have hwf' : wfAux tl (tds + 1) = true := by simpa [wfAux] using hwf
        obtain ⟨h1, h2⟩ := ih (fun j => o (j + 1)) k (tds + 1) hwf' (by simpa using hk)
          (by simpa using hfail)
          (fun j hj hs => hpre (j + 1) (Nat.succ_lt_succ hj) (by simpa using hs))
        rw [runItems_taskDone]
        refine ⟨h1, ?_⟩
        rw [countTC_cons_tc]
        push_cast
        omega
    | save =>
      rcases k with _ | k
      · simp at hk
      · have hwf' : wfAux tl tds = true := by simpa [wfAux] using hwf
        obtain ⟨h1, h2⟩ := ih (fun j => o (j + 1)) k tds hwf' (by simpa using hk)
          (by simpa using hfail)
          (fun j hj hs => hpre (j + 1) (Nat.succ_lt_succ hj) (by simpa using hs))
        rw [runItems_save]
        refine ⟨h1, ?_⟩
        rw [countTC_cons_save]
        exact h2
    | condLog line =>
      rcases k with _ | k
      · simp at hk
      · have hwf' : wfAux tl tds = true := by simpa [wfAux] using hwf
        obtain ⟨h1, h2⟩ := ih (fun j => o (j + 1)) k tds hwf' (by simpa using hk)
          (by simpa using hfail)
          (fun j hj hs => hpre (j + 1) (Nat.succ_lt_succ hj) (by simpa using hs))
        rw [runItems_condLog]
        refine ⟨h1, ?_⟩
        by_cases h0 : o 0
        · simpa [h0, countTC_cons_log] using h2
        · simpa [h0] using h2

theorem tcOf_step (t : TaskTest) (rest : List Item) : tcOf (.step t :: rest) = tcOf rest := rfl

theorem tcOf_taskDone (f : Bool) (b : Int) (rest : List Item) :
    tcOf (.taskDone f b :: rest) = (f, b) :: tcOf rest := rfl

theorem tcOf_save (rest : List Item) : tcOf (.save :: rest) = tcOf rest := rfl

theorem tcOf_condLog (line : String) (rest : List Item) :
    tcOf (.condLog line :: rest) = tcOf rest := rfl

theorem filterTC_cons_tc (f : Bool) (b : Int) (tr : List SubmissionUpdate) :
    filterTC (.TaskCompleted f b :: tr) = (f, b) :: filterTC tr := by
  simp [filterTC]

theorem filterTC_cons_save (tr : List SubmissionUpdate) :
    filterTC (.Save :: tr) = filterTC tr := by
  simp [filterTC]

theorem filterTC_cons_log (line : String) (tr : List SubmissionUpdate) :
    filterTC (.LogLine line :: tr) = filterTC tr := by
  simp [filterTC]

/-- On a successful run every item of the script executes, so the
`TaskCompleted` events of the trace are exactly the `taskDone` items of
the script, in order. -/
theorem runItems_ok_filterTC (prog : List Item) (o : Nat → Bool)
    (h : (runItems prog o).2 = .ok ()) :
    filterTC (runItems prog o).1 = tcOf prog := by
  induction prog generalizing o with
  | nil => simp [runItems, filterTC, tcOf]
  | cons hd tl ih =>
    cases hd with
    | step t =>
      by_cases h0 : o 0
      · rw [runItems_step_pass _ _ _ h0] at h ⊢
        rw [ih _ h, tcOf_step]
      · rw [runItems_step_fail _ _ _ (by simpa using h0)] at h
        simp at h
    | taskDone f b =>
      rw [runItems_taskDone] at h ⊢
      rw [filterTC_cons_tc, tcOf_taskDone, ih _ h]
    | save =>
      rw [runItems_save] at h ⊢
      rw [filterTC_cons_save, tcOf_save, ih _ h]
    | condLog line =>
      rw [runItems_condLog] at h ⊢
      by_cases h0 : o 0
      · rw [tcOf_condLog, ← ih _ h]
        simp [h0, filterTC]
      · rw [tcOf_condLog, ← ih _ h]
        simp [h0]

/-- A failing run never reaches the items at or after the failing step, so
its result is an error, never `Ok`: helper contrapositive used below. -/
theorem runItems_ok_of_step (prog : List Item) (o : Nat → Bool)
    (h : (runItems prog o).2 = .ok ()) (k : Nat) (t : TaskTest)
    (hk : prog.get? k = some (.step t)) : o k = true := by
  induction prog generalizing o k with
  | nil => simp at hk
  | cons hd tl ih =>
    cases hd with
    | step u =>
      by_cases h0 : o 0
      · rcases k with _ | k
        · exact h0
        · rw [runItems_step_pass _ _ _ h0] at h
          exact ih _ h k (by simpa using hk)
      · rw [runItems_step_fail _ _ _ (by simpa using h0)] at h
        simp at h
    | taskDone f b =>
      rcases k with _ | k
      · simp at hk
      · rw [runItems_taskDone] at h
        exact ih _ h k (by simpa using hk)
    | save =>
      rcases k with _ | k
      · simp at hk
      · rw [runItems_save] at h
        exact ih _ h k (by simpa using hk)
    | condLog line =>
      rcases k with _ | k
      · simp at hk
      · rw [runItems_condLog] at h
        exact ih _ h k (by simpa using hk)

/-- Trace-level statement of "every `TaskCompleted` is immediately followed
by a `Save`, unless it is the last event the script emitted". -/
def TcSaved (tr : List SubmissionUpdate) : Prop :=
  ∀ i f b, tr.get? i = some (.TaskCompleted f b) →
    tr.get? (i + 1) = some .Save ∨ i + 1 = tr.length

/-- In every run of a script whose `taskDone` items are each followed by a
`save` item or final, each emitted `TaskCompleted` is immediately
followed by a `Save` or ends the script's event stream. -/
theorem runItems_tdSaved (prog : List Item) (o : Nat → Bool)
    (h : tdSavedB prog = true) : TcSaved (runItems prog o).1 := by
  induction prog generalizing o with
  | nil =>
    intro i f b hi
    simp [runItems] at hi
  | cons hd tl ih =>
    cases hd with
    | step t =>
      by_cases h0 : o 0
      · rw [runItems_step_pass _ _ _ h0]
        exact ih _ (by simpa [tdSavedB] using h)
      · rw [runItems_step_fail _ _ _ (by simpa using h0)]
        intro i f b hi
        simp at hi
    | taskDone f' b' =>
      rw [runItems_taskDone]
      have h' : tdSavedB tl = true := by
        cases tl with
        | nil => simp [tdSavedB]
        | cons hd2 tl2 => cases hd2 <;> simpa [tdSavedB] using h
      intro i f b hi
      rcases i with _ | i
      · cases tl with
        | nil =>
          right
          simp [runItems]
        | cons hd2 tl2 =>
          cases hd2 with
          | step u => simp [tdSavedB] at h
          | taskDone f2 b2 => simp [tdSavedB] at h
          | save =>
            left
            simp [runItems_save]
          | condLog line => simp [tdSavedB] at h
      · have := ih (fun j => o (j + 1)) h' i f b (by simpa using hi)
        rcases this with hs | hlen
        · left
          simpa using hs
        · right
          simp [hlen]
    | save =>
      rw [runItems_save]
      have h' : tdSavedB tl = true := by simpa [tdSavedB] using h
      intro i f b hi
      rcases i with _ | i
      · simp at hi
      · have := ih (fun j => o (j + 1)) h' i f b (by simpa using hi)
        rcases this with hs | hlen
        · left
          simpa using hs
        · right
          simp [hlen]
    | condLog line =>
      rw [runItems_condLog]
      have h' : tdSavedB tl = true := by simpa [tdSavedB] using h
      by_cases h0 : o 0
      · simp only [h0, if_true]
        intro i f b hi
        rcases i with _ | i
        · simp at hi
        · have := ih (fun j => o (j + 1)) h' i f b (by simpa using hi)
          rcases this with hs | hlen
          · left
            simpa using hs
          · right
            simp [hlen]
      · simp only [h0, Bool.false_eq_true, if_false, List.nil_append]
        exact ih _ h'

/-- Delivering a trace over the channel panics exactly when the channel is
closed at one of the sends the trace performs. -/
theorem sendAllE_error_iff (tr : List SubmissionUpdate) (openAt : Nat → Bool) (i : Nat) :
    sendAllE openAt i tr = .error .panicked ↔ ∃ j, j < tr.length ∧ openAt (i + j) = false := by
  induction tr generalizing i with
  | nil => simp [sendAllE]
  | cons hd tl ih =>
    by_cases h : openAt i
    · rw [show sendAllE openAt i (hd :: tl) = sendAllE openAt (i + 1) tl from by
        simp [sendAllE, h]]
      rw [ih (i + 1)]
      constructor
      · rintro ⟨j, hj, ho⟩
        exact ⟨j + 1, by simpa using Nat.succ_lt_succ hj, by rwa [show i + (j + 1) = i + 1 + j from by omega]⟩
      · rintro ⟨j, hj, ho⟩
        rcases j with _ | j
        · rw [Nat.add_zero] at ho
          rw [h] at ho
          cases ho
        · exact ⟨j, by simpa using Nat.lt_of_succ_lt_succ hj, by rwa [show i + 1 + j = i + (j + 1) from by omega]⟩
    · rw [show sendAllE openAt i (hd :: tl) = .error .panicked from by
        simp [sendAllE, h]]
      simp only [true_iff]
      exact ⟨0, by simp, by simpa using h⟩

/-! Lemmas about the orchestrator trace. -/

theorem count_state_runItems (prog : List Item) (o : Nat → Bool) (st : SubmissionState) :
    ((runItems prog o).1).count (.State st) = 0 :=
  List.count_eq_zero.mpr (runItems_no_state prog o st)

theorem count_state_finishTail (r : ValidateResult) (st : SubmissionState) :
    (finishTail r).count (.State st) = 0 := by
  rcases r with ⟨a, b⟩ | u
  · simp [finishTail]
  · cases u
    simp [finishTail]

/-- For every selected script, any oracle, and either race outcome, the
trace of `run` starts with `StateChanged(Running)` and contains exactly
one `StateChanged(Running)` and exactly one `StateChanged(Done)`. -/
theorem runTraceG_good (prog : List Item) (ns : String) (o : Nat → Bool) (oc : RunOutcome) :
    (runTraceG (some prog) ns o oc).head? = some (.State .Running) ∧
    (runTraceG (some prog) ns o oc).count (.State .Running) = 1 ∧
    (runTraceG (some prog) ns o oc).count (.State .Done) = 1 := by
  cases oc with
  | finished =>
    refine ⟨rfl, ?_, ?_⟩
    · simp [runTraceG, validateTraceG, List.count_cons, List.count_append, runScript,
        count_state_runItems, count_state_finishTail]
    · simp [runTraceG, validateTraceG, List.count_cons, List.count_append, runScript,
        count_state_runItems, count_state_finishTail]
  | timedOut c =>
    refine ⟨rfl, ?_, ?_⟩
    · simp [runTraceG, List.count_cons, List.count_append, runScript, count_state_runItems]
    · simp [runTraceG, List.count_cons, List.count_append, runScript, count_state_runItems]

theorem lookup23_of_contains (number : Int)
    (h : SUPPORTED_CHALLENGES_23.contains number = true) :
    lookup23 number = some (dispatch23 number) := by
  simp only [lookup23, h]
  simp

theorem lookup24_of_contains (number : String)
    (h : SUPPORTED_CHALLENGES_24.contains number = true) :
    ∃ prog, lookup24 number = some prog := by
  have hm : number ∈ SUPPORTED_CHALLENGES_24 := by simpa using h
  fin_cases hm <;> exact ⟨_, rfl⟩

/-- C1: for every invocation of `run` with a challenge number in the
statically supported set, the emitted event stream contains exactly one
`StateChanged(Running)`, emitted before any other event, and exactly one
`StateChanged(Done)` — whether the validation script succeeds, fails, or
the 60-second timer fires, and `Done` is never emitted twice.  Stated for
both validators, over every server oracle and either race outcome. -/
theorem run_state_machine_totality :
    (∀ (number : Int) (o : Nat → Bool) (oc : RunOutcome),
        SUPPORTED_CHALLENGES_23.contains number = true →
        (runTrace23 number o oc).head? = some (.State .Running) ∧
        (runTrace23 number o oc).count (.State .Running) = 1 ∧
        (runTrace23 number o oc).count (.State .Done) = 1) ∧
    (∀ (number : String) (o : Nat → Bool) (oc : RunOutcome),
        SUPPORTED_CHALLENGES_24.contains number = true →
        (runTrace24 number o oc).head? = some (.State .Running) ∧
        (runTrace24 number o oc).count (.State .Running) = 1 ∧
        (runTrace24 number o oc).count (.State .Done) = 1) := by
  constructor
  · intro number o oc h
    rw [runTrace23, lookup23_of_contains number h]
    exact runTraceG_good _ _ o oc
  · intro number o oc h
    obtain ⟨prog, hp⟩ := lookup24_of_contains number h
    rw [runTrace24, hp]
    exact runTraceG_good _ _ o oc

/-- Witness for C1: challenge `-1` of cch23 against an all-pass server. -/
theorem run_state_machine_totality_witness :
    (runTrace23 (-1) (fun _ => true) .finished).head? = some (.State .Running) ∧
    (runTrace23 (-1) (fun _ => true) .finished).count (.State .Running) = 1 ∧
    (runTrace23 (-1) (fun _ => true) .finished).count (.State .Done) = 1 :=
  run_state_machine_totality.1 (-1) (fun _ => true) .finished (by decide)

theorem lookup24_of_not_contains (number : String)
    (h : SUPPORTED_CHALLENGES_24.contains number = false) :
    lookup24 number = none := by
  unfold lookup24
  split_ifs with h1 h2 h3 h4 h5 h6 h7 h8 <;>
    first
      | rfl
      | (subst_vars; exact absurd h (by decide))

theorem lookup23_of_not_contains (number : Int)
    (h : SUPPORTED_CHALLENGES_23.contains number = false) :
    lookup23 number = none := by
  simp only [lookup23, h]
  simp

/-- C2 counterexample: invoking cch23 `run` with the unsupported challenge
number `0` emits `StateChanged(Running)` (and a `PersistHint`) before the
single unsupported-challenge log line, so the stream does contain a
`StateChanged` event, contrary to the claim. -/
theorem run_unsupported_counterexample :
    SUPPORTED_CHALLENGES_23.contains 0 = false ∧
    runTrace23 0 (fun _ => true) .finished =
      [.State .Running, .Save, .LogLine (unsupportedMsg "0")] ∧
    .State .Running ∈ runTrace23 0 (fun _ => true) .finished := by
  decide

/-- C2 (amended): invoking `run` with a challenge identifier outside the
supported set yields `StateChanged(Running)` and a `PersistHint` followed
by exactly one `LogLine` saying the challenge is not supported, after
which the stream closes: in particular no `StateChanged(Done)` and no
further events.  (The timer cannot win the race here, since the
unsupported path never suspends; the `timedOut` outcome is mapped to the
same trace.) -/
theorem run_unsupported_trace :
    (∀ (number : Int) (o : Nat → Bool) (oc : RunOutcome),
        SUPPORTED_CHALLENGES_23.contains number = false →
        runTrace23 number o oc =
          [.State .Running, .Save, .LogLine (unsupportedMsg (toString number))]) ∧
    (∀ (number : String) (o : Nat → Bool) (oc : RunOutcome),
        SUPPORTED_CHALLENGES_24.contains number = false →
        runTrace24 number o oc = [.State .Running, .Save, .LogLine (unsupportedMsg number)]) := by
  constructor
  · intro number o oc h
    rw [runTrace23, lookup23_of_not_contains number h]
    cases oc <;> rfl
  · intro number o oc h
    rw [runTrace24, lookup24_of_not_contains number h]
    cases oc <;> rfl

/-- Witness for the amended C2: cch23 challenge `2` is unsupported. -/
theorem run_unsupported_trace_witness :
    runTrace23 2 (fun _ => true) .finished =
      [.State .Running, .Save, .LogLine (unsupportedMsg "2")] :=
  run_unsupported_trace.1 2 (fun _ => true) .finished (by decide)

/-- C3: when the 60-second timer wins the race, `run` emits the events the
script had produced so far, then `LogLine("Timed out")`, then
`StateChanged(Done)`, then `PersistHint`, in that order, and returns; the
script's own completion path is never awaited — the trace does not depend
on any server behaviour at or beyond the suspended step. -/
theorem run_timeout_sequence :
    (∀ (number : Int) (prog : List Item) (o : Nat → Bool) (c : Nat),
        lookup23 number = some prog →
        cutValid prog o c = true →
        runTrace23 number o (.timedOut c) =
          [.State .Running, .Save] ++ (runScript (prog.take c) o).1 ++
            [.LogLine timedOutMsg, .State .Done, .Save] ∧
          ∀ o' : Nat → Bool, (∀ j, j < c → o' j = o j) →
            runTrace23 number o' (.timedOut c) = runTrace23 number o (.timedOut c)) ∧
    (∀ (number : String) (prog : List Item) (o : Nat → Bool) (c : Nat),
        lookup24 number = some prog →
        cutValid prog o c = true →
        runTrace24 number o (.timedOut c) =
          [.State .Running, .Save] ++ (runScript (prog.take c) o).1 ++
            [.LogLine timedOutMsg, .State .Done, .Save] ∧
          ∀ o' : Nat → Bool, (∀ j, j < c → o' j = o j) →
            runTrace24 number o' (.timedOut c) = runTrace24 number o (.timedOut c)) := by
  have key : ∀ (lk : Option (List Item)) (ns : String) (prog : List Item) (o : Nat → Bool)
      (c : Nat), lk = some prog →
      runTraceG lk ns o (.timedOut c) =
        [.State .Running, .Save] ++ (runScript (prog.take c) o).1 ++
          [.LogLine timedOutMsg, .State .Done, .Save] ∧
        ∀ o' : Nat → Bool, (∀ j, j < c → o' j = o j) →
          runTraceG lk ns o' (.timedOut c) = runTraceG lk ns o (.timedOut c) := by
    intro lk ns prog o c hlk
    subst hlk
    constructor
    · simp [runTraceG]
    · intro o' ho
      have : runItems (prog.take c) o' = runItems (prog.take c) o := by
        refine runItems_congr _ _ _ fun j hj => ho j ?_
        have := List.length_take_le c prog
        omega
      simp [runTraceG, runScript, this]
  exact ⟨fun number prog o c hlk _ => key _ (toString number) prog o c hlk,
    fun number prog o c hlk _ => key _ number prog o c hlk⟩

/-- Witness for C3: cch23 challenge `-1` timed out while suspended on its
very first request. -/
theorem run_timeout_sequence_witness :
    runTrace23 (-1) (fun _ => true) (.timedOut 0) =
      [.State .Running, .Save] ++
        (runScript (Cch23.validate_minus1.take 0) (fun _ => true)).1 ++
        [.LogLine timedOutMsg, .State .Done, .Save] :=
  (run_timeout_sequence.1 (-1) Cch23.validate_minus1 (fun _ => true) 0 (by decide) (by decide)).1

/-- C5 counterexample: when challenge `-1` of cch23 fails its first test,
the orchestrator logs `"Task 1: test #1 failed 🟥"` — with a trailing
red-square emoji — and no event of the run carries the exact text
`"Task 1: test #1 failed"` the claim demands. -/
theorem failure_line_counterexample :
    runTrace23 (-1) (fun _ => false) .finished =
      [.State .Running, .Save, .LogLine "Task 1: test #1 failed 🟥", .State .Done, .Save] ∧
    SubmissionUpdate.LogLine "Task 1: test #1 failed" ∉
      runTrace23 (-1) (fun _ => false) .finished := by
  decide

/-- C5 (amended): when the script returns `Err((task, test))`, the
orchestrator emits a `LogLine` whose text is exactly
`"Task {task}: test #{test} failed 🟥"` (the spec's wording, plus the
trailing emoji of the source), then `StateChanged(Done)`, then
`PersistHint`. -/
theorem failure_line_emission :
    (∀ (number : Int) (prog : List Item) (o : Nat → Bool) (task tst : Int),
        lookup23 number = some prog →
        (runScript prog o).2 = .error (task, tst) →
        runTrace23 number o .finished =
          [.State .Running, .Save] ++ (runScript prog o).1 ++
            [.LogLine (failLine task tst), .State .Done, .Save]) ∧
    (∀ (number : String) (prog : List Item) (o : Nat → Bool) (task tst : Int),
        lookup24 number = some prog →
        (runScript prog o).2 = .error (task, tst) →
        runTrace24 number o .finished =
          [.State .Running, .Save] ++ (runScript prog o).1 ++
            [.LogLine (failLine task tst), .State .Done, .Save]) ∧
    (∀ task tst : Int,
        failLine task tst =
          "Task " ++ toString task ++ ": test #" ++ toString tst ++ " failed 🟥") := by
  have key : ∀ (lk : Option (List Item)) (ns : String) (prog : List Item) (o : Nat → Bool)
      (task tst : Int), lk = some prog → (runScript prog o).2 = .error (task, tst) →
      runTraceG lk ns o .finished =
        [.State .Running, .Save] ++ (runScript prog o).1 ++
          [.LogLine (failLine task tst), .State .Done, .Save] := by
    intro lk ns prog o task tst hlk herr
    subst hlk
    simp [runTraceG, validateTraceG, herr, finishTail]
  exact ⟨fun number prog o task tst hlk herr => key _ (toString number) prog o task tst hlk herr,
    fun number prog o task tst hlk herr => key _ number prog o task tst hlk herr,
    fun task tst => rfl⟩

/-- Witness for the amended C5: cch23 challenge `-1` failing its first
test produces the emoji-terminated log line before `Done` and `Save`. -/
theorem failure_line_emission_witness :
    runTrace23 (-1) (fun _ => false) .finished =
      [.State .Running, .Save] ++ (runScript Cch23.validate_minus1 (fun _ => false)).1 ++
        [.LogLine (failLine 1 1), .State .Done, .Save] :=
  failure_line_emission.1 (-1) Cch23.validate_minus1 (fun _ => false) 1 1 (by decide) (by decide)

theorem allProgs_wfB : allProgs.all wfB = true := by rfl

theorem allProgs_tdSavedB : allProgs.all tdSavedB = true := by rfl

theorem allProgs_oneFinal : (allProgs.all fun p => oneFinalB (tcOf p)) = true := by rfl

theorem allProgs_afterFinalNonneg :
    (allProgs.all fun p => afterFinalNonnegB (tcOf p)) = true := by rfl

/-- C4: in every run of a validation script of either validator in which
the step at position `k` is the first to fail, the script returns `Err`
with exactly that step's `TaskTest` `(a, b)` — a single failure, never an
aggregate — and the `TaskCompleted` events emitted are exactly those of
the `a - 1` task groups strictly before the failing step's group: none
for groups at or after it. -/
theorem first_failure_propagation :
    ∀ (prog : List Item) (o : Nat → Bool) (k : Nat) (a b : Int),
      prog ∈ allProgs →
      prog.get? k = some (.step (a, b)) →
      o k = false →
      (∀ j, j < k → (∃ t, prog.get? j = some (.step t)) → o j = true) →
      (runScript prog o).2 = .error (a, b) ∧
        (countTC (runScript prog o).1 : Int) = a - 1 := by
  intro prog o k a b hmem hk hfail hpre
  have hwf : wfB prog = true := List.all_eq_true.mp allProgs_wfB prog hmem
  have := runItems_firstFail prog o k 0 a b hwf hk hfail hpre
  exact ⟨this.1, by simpa using this.2⟩

/-- Witness for C4: cch24 `validate_2` with a server that passes the first
five positions and fails the step at position 5 (test `(2, 1)`): the run
errors with `(2, 1)` and reports exactly one completed task group. -/
theorem first_failure_propagation_witness :
    (runScript Cch24.validate_2 (fun j => decide (j < 5))).2 = .error (2, 1) ∧
    (countTC (runScript Cch24.validate_2 (fun j => decide (j < 5))).1 : Int) = 2 - 1 :=
  first_failure_propagation Cch24.validate_2 (fun j => decide (j < 5)) 5 2 1
    (by decide) (by decide) (by decide)
    (fun j hj _ => by simpa using hj)

/-- C6 counterexample: a successful run of cch24 `validate_minus1` emits
its second `TaskCompleted` as the script's last event, immediately
followed by the orchestrator's `StateChanged(Done)` — not by a
`PersistHint` as the claim demands of every `TaskCompleted`. -/
theorem taskcompleted_save_counterexample :
    runTrace24 "-1" (fun _ => true) .finished =
      [.State .Running, .Save, .TaskCompleted true 0, .Save, .TaskCompleted false 0,
        .State .Done, .Save] ∧
    (runTrace24 "-1" (fun _ => true) .finished).get? 4 = some (.TaskCompleted false 0) ∧
    (runTrace24 "-1" (fun _ => true) .finished).get? 5 ≠ some .Save := by
  decide

/-- C6 (amended): in every run of every validation script, each
`TaskCompleted` the script emits is immediately followed by a
`PersistHint` — except when it is the script's final emitted event (the
last `TaskCompleted` of several scripts), in which case the next stream
event is the orchestrator's `StateChanged(Done)` instead. -/
theorem taskcompleted_save_pairing :
    ∀ (prog : List Item) (o : Nat → Bool),
      prog ∈ allProgs → TcSaved (runScript prog o).1 := by
  intro prog o hmem
  exact runItems_tdSaved prog o (List.all_eq_true.mp allProgs_tdSavedB prog hmem)

/-- Witness for the amended C6: in a successful run of cch23 `validate_1`,
the first `TaskCompleted` (at index 0 of the script trace) is immediately
followed by a `PersistHint`. -/
theorem taskcompleted_save_pairing_witness :
    (runScript Cch23.validate_1 (fun _ => true)).1.get? 1 = some .Save ∨
      0 + 1 = (runScript Cch23.validate_1 (fun _ => true)).1.length :=
  taskcompleted_save_pairing Cch23.validate_1 (fun _ => true) (by decide) 0 true 0 (by decide)

/-- C9 counterexample: cch23 `validate_minus1` completes successfully with
`TaskCompleted` payloads `[(true, 0), (false, 0)]`: the task group
reported after the final task carries `bonus_points = 0`, not the
strictly positive value the claim demands. -/
theorem final_task_counterexample :
    (runScript Cch23.validate_minus1 (fun _ => true)).2 = .ok () ∧
    filterTC (runScript Cch23.validate_minus1 (fun _ => true)).1 = [(true, 0), (false, 0)] ∧
    afterFinalPosB (filterTC (runScript Cch23.validate_minus1 (fun _ => true)).1) = false := by
  decide

/-- C9 (amended): every validation script run that returns `Ok(())` emits
exactly one `TaskCompleted` with `is_final_task = true` (never two), not
necessarily last; every `TaskCompleted` after it has
`is_final_task = false` and a nonnegative `bonus_points` (zero for
`validate_minus1`'s trailing task, strictly positive in every other
script). -/
theorem final_task_uniqueness :
    ∀ (prog : List Item) (o : Nat → Bool),
      prog ∈ allProgs →
      (runScript prog o).2 = .ok () →
      oneFinalB (filterTC (runScript prog o).1) = true ∧
        afterFinalNonnegB (filterTC (runScript prog o).1) = true := by
  intro prog o hmem hok
  rw [show filterTC (runScript prog o).1 = tcOf prog from runItems_ok_filterTC prog o hok]
  exact ⟨List.all_eq_true.mp allProgs_oneFinal prog hmem,
    List.all_eq_true.mp allProgs_afterFinalNonneg prog hmem⟩

/-- Witness for the amended C9: a successful run of cch23 `validate_13`. -/
theorem final_task_uniqueness_witness :
    oneFinalB (filterTC (runScript Cch23.validate_13 (fun _ => true)).1) = true ∧
    afterFinalNonnegB (filterTC (runScript Cch23.validate_13 (fun _ => true)).1) = true :=
  final_task_uniqueness Cch23.validate_13 (fun _ => true) (by decide) (by decide)

theorem recv_error_eq_test (ws : Cch23.WS) (next : Option (Except Unit WsMsg)) (e : TaskTest)
    (h : ws.recv next = .error e) : e = ws.test := by
  rcases next with - | r
  · exact (Except.error.inj (h : (.error ws.test : Except TaskTest String) = .error e)).symm
  · rcases r with u | m
    · exact (Except.error.inj (h : (.error ws.test : Except TaskTest String) = .error e)).symm
    · cases m
      case text t =>
        cases (h : (.ok t : Except TaskTest String) = .error e)
      all_goals
        exact (Except.error.inj (h : (.error ws.test : Except TaskTest String) = .error e)).symm

/-- C7: every I/O (or comparison) failure inside a harness operation is
attributed to the `TaskTest` bound to the harness at the time of the
call — including after the binding was reassigned — while a `connect`
failure is attributed to the caller-supplied `TaskTest`. -/
theorem harness_attribution :
    (∀ t : TaskTest, Cch23.WS.new t false = .error t) ∧
    (∀ ws : Cch23.WS, ws.send false = .error ws.test) ∧
    (∀ ws : Cch23.WS, ws.send_tweet false = .error ws.test) ∧
    (∀ (ws : Cch23.WS) (next : Option (Except Unit WsMsg)),
        (∀ s, next ≠ some (.ok (.text s))) → ws.recv next = .error ws.test) ∧
    (∀ (ws : Cch23.WS) (next : Option (Except Unit WsMsg)) (exp : String) (e : TaskTest),
        ws.recv_str next exp = .error e → e = ws.test) ∧
    (∀ (α : Type) (inst : DecidableEq α) (ws : Cch23.WS) (next : Option (Except Unit WsMsg))
        (parse : String → Option α) (exp : α) (e : TaskTest),
        Cch23.WS.recv_json ws next parse exp = .error e → e = ws.test) ∧
    (∀ ws : Cch23.WS, ws.close false = .error ws.test) ∧
    (∀ (ws : Cch23.WS) (t : TaskTest), (ws.setTest t).send false = .error t) := by
  refine ⟨fun t => rfl, fun ws => rfl, fun ws => rfl, ?_, ?_, ?_, fun ws => rfl,
    fun ws t => rfl⟩
  · intro ws next h
    rcases next with - | r
    · rfl
    · rcases r with u | m
      · rfl
      · cases m
        case text t => exact absurd rfl (h t)
        all_goals rfl
  · intro ws next exp e h
    rcases next with - | r
    · exact (Except.error.inj (h : (.error ws.test : Except TaskTest Unit) = .error e)).symm
    · rcases r with u | m
      · exact (Except.error.inj (h : (.error ws.test : Except TaskTest Unit) = .error e)).symm
      · cases m
        case text t =>
          have h' : (if t = exp then (.ok () : Except TaskTest Unit) else .error ws.test) =
              .error e := h
          by_cases ht : t = exp
          · rw [if_pos ht] at h'
            cases h'
          · rw [if_neg ht] at h'
            exact (Except.error.inj h').symm
        all_goals
          exact (Except.error.inj (h : (.error ws.test : Except TaskTest Unit) = .error e)).symm
  · intro α inst ws next parse exp e h
    rcases next with - | r
    · exact (Except.error.inj (h : (.error ws.test : Except TaskTest Unit) = .error e)).symm
    · rcases r with u | m
      · exact (Except.error.inj (h : (.error ws.test : Except TaskTest Unit) = .error e)).symm
      · cases m
        case text t =>
          have h' : (match parse t with
              | none => (.error ws.test : Except TaskTest Unit)
              | some j => if j = exp then .ok () else .error ws.test) = .error e := h
          rcases hp : parse t with - | j
          · rw [hp] at h'
            exact (Except.error.inj
              (h' : (.error ws.test : Except TaskTest Unit) = .error e)).symm
          · rw [hp] at h'
            have h2 : (if j = exp then (.ok () : Except TaskTest Unit) else .error ws.test) =
                .error e := h'
            by_cases hj : j = exp
            · rw [if_pos hj] at h2
              cases h2
            · rw [if_neg hj] at h2
              exact (Except.error.inj h2).symm
        all_goals
          exact (Except.error.inj (h : (.error ws.test : Except TaskTest Unit) = .error e)).symm

/-- Witness for C7: a failed send is attributed to the reassigned binding
`(1, 2)` of a harness created with `(1, 1)`, a non-text frame fails
`recv` with the current binding, and a failed connect returns the
caller-supplied id, mirroring the reassignments in cch23 `validate_19`. -/
theorem harness_attribution_witness :
    (Cch23.WS.setTest { test := (1, 1) } (1, 2)).send false = .error (1, 2) ∧
    Cch23.WS.recv { test := (1, 3) } (some (.ok .ping)) = .error (1, 3) ∧
    Cch23.WS.new (2, 2) false = .error (2, 2) :=
  ⟨harness_attribution.2.2.2.2.2.2.2 { test := (1, 1) } (1, 2),
    harness_attribution.2.2.2.1 { test := (1, 3) } (some (.ok .ping)) (by simp),
    harness_attribution.1 (2, 2)⟩

theorem lookup23_mem_allProgs (number : Int) (prog : List Item)
    (h : lookup23 number = some prog) : prog ∈ allProgs := by
  unfold lookup23 at h
  by_cases hc : SUPPORTED_CHALLENGES_23.contains number = true
  · rw [if_pos hc] at h
    obtain rfl : dispatch23 number = prog := Option.some.inj h
    have hm : number ∈ SUPPORTED_CHALLENGES_23 := by simpa using hc
    fin_cases hm <;> decide
  · rw [if_neg hc] at h
    cases h

theorem lookup24_mem_allProgs (number : String) (prog : List Item)
    (h : lookup24 number = some prog) : prog ∈ allProgs := by
  by_cases hc : SUPPORTED_CHALLENGES_24.contains number = true
  · have hm : number ∈ SUPPORTED_CHALLENGES_24 := by simpa using hc
    fin_cases hm <;> (obtain rfl := Option.some.inj h; decide)
  · rw [lookup24_of_not_contains number (by simpa using hc)] at h
    cases h

theorem sendAllE_dichotomy (tr : List SubmissionUpdate) (openAt : Nat → Bool) (i : Nat) :
    sendAllE openAt i tr = .ok () ∨ sendAllE openAt i tr = .error .panicked := by
  rcases h : sendAllE openAt i tr with p | u
  · cases p
    exact .inr rfl
  · cases u
    exact .inl rfl

/-- C8: delivering the event stream of any `run` invocation over the
progress channel either succeeds entirely or panics (aborting the
process) — a send failure is never folded into a `TaskTest` error or an
event — and it panics exactly when the channel is closed at one of the
sends the stream performs. -/
theorem channel_send_panic :
    (∀ (number : Int) (o : Nat → Bool) (oc : RunOutcome) (openAt : Nat → Bool),
        (sendAllE openAt 0 (runTrace23 number o oc) = .error .panicked ↔
          ∃ j, j < (runTrace23 number o oc).length ∧ openAt j = false) ∧
        (sendAllE openAt 0 (runTrace23 number o oc) = .ok () ∨
          sendAllE openAt 0 (runTrace23 number o oc) = .error .panicked)) ∧
    (∀ (number : String) (o : Nat → Bool) (oc : RunOutcome) (openAt : Nat → Bool),
        (sendAllE openAt 0 (runTrace24 number o oc) = .error .panicked ↔
          ∃ j, j < (runTrace24 number o oc).length ∧ openAt j = false) ∧
        (sendAllE openAt 0 (runTrace24 number o oc) = .ok () ∨
          sendAllE openAt 0 (runTrace24 number o oc) = .error .panicked)) :=
  ⟨fun number o oc openAt =>
      ⟨by simpa using sendAllE_error_iff (runTrace23 number o oc) openAt 0,
        sendAllE_dichotomy _ openAt 0⟩,
    fun number o oc openAt =>
      ⟨by simpa using sendAllE_error_iff (runTrace24 number o oc) openAt 0,
        sendAllE_dichotomy _ openAt 0⟩⟩

/-- Witness for C8: with the channel closed from the start, delivering the
stream of a cch23 challenge `-1` run panics. -/
theorem channel_send_panic_witness :
    sendAllE (fun _ => false) 0 (runTrace23 (-1) (fun _ => true) .finished) =
      .error .panicked :=
  ((channel_send_panic.1 (-1) (fun _ => true) .finished (fun _ => false)).1).mpr
    ⟨0, by decide, rfl⟩

/-- C10: when the base URL does not begin with `"http"`, the
`ws_base_url` derivation of cch23 `validate_19` panics (the `expect` on
the failed prefix strip, modelled as `none`) instead of producing a URL —
no `TaskTest` error is ever produced by this path; when it does begin
with `"http"`, the scheme prefix is replaced by `ws`. -/
theorem ws_url_panic :
    (∀ u : String, ¬ ("http".data <+: u.data) → Cch23.wsBaseUrl u = none) ∧
    (∀ u : String, ("http".data <+: u.data) →
        Cch23.wsBaseUrl u = some ("ws" ++ String.mk (u.data.drop 4))) := by
  constructor
  · intro u h
    simp [Cch23.wsBaseUrl, Cch23.stripHttp, h]
  · intro u h
    simp [Cch23.wsBaseUrl, Cch23.stripHttp, h]

/-- Witness for C10: the base URL `"ftp://x"` does not start with `http`,
and the derivation panics; `"http://x"` maps to `"ws://x"`. -/
theorem ws_url_panic_witness :
    Cch23.wsBaseUrl "ftp://x" = none ∧ Cch23.wsBaseUrl "http://x" = some "ws://x" :=
  ⟨ws_url_panic.1 "ftp://x" (by decide), by
    have := ws_url_panic.2 "http://x" (by decide)
    simpa using this⟩

end Shuttlings
